import Mathlib

/-!
# Verification of the MAAS Rust client core

A shallow embedding of the MAAS client library (OAuth1-signed HTTP request
dispatch) and proofs about its behaviour.  The embedding covers:

* the string utilities the Rust code relies on (`trim_end_matches`,
  `trim_start_matches`, `split(':')`), modelled over `List Char`;
* a generic JSON tree value and a fuel-based parser standing in for the
  `serde_json` codec;
* the error taxonomy of `src/error.rs` and the observable error kinds of the
  `reqwest` transport as the client consumes them;
* the four client variants of the repository: the async `client::MaasClient`
  and `blocking_client::MaasClient` of `src/client.rs`, the `MaasClient` of
  `src/lib.rs`, and the `MaasClient` of `src/main.rs`;
* the OAuth1 HMAC-SHA1 signer (percent-encoding, base string, HMAC-SHA1,
  base64), which the Rust code delegates to the external `oauth1_request`
  crate and which is therefore modelled from the specification, with the
  nonce and timestamp injected as parameters.
-/

/-! ## Rust string helpers -/

/-- Rust `str::trim_start_matches(c)` for a single-character pattern: removes
every leading occurrence of `c`. -/
def rustTrimStartMatches (c : Char) (s : String) : String :=
  ⟨s.data.dropWhile (fun d => d == c)⟩

/-- Rust `str::trim_end_matches(c)` for a single-character pattern: removes
every trailing occurrence of `c`. -/
def rustTrimEndMatches (c : Char) (s : String) : String :=
  ⟨((s.data.reverse.dropWhile (fun d => d == c)).reverse)⟩

/-- Auxiliary recursion for `rustSplit`: `acc` holds the current field in
reverse order. -/
def rustSplitAux (sep : Char) : List Char → List Char → List String
  | [], acc => [⟨acc.reverse⟩]
  | c :: rest, acc =>
    if c == sep then ⟨acc.reverse⟩ :: rustSplitAux sep rest []
    else rustSplitAux sep rest (c :: acc)

/-- Rust `str::split(sep)` for a character separator, as used by
`api_key.split(':')`: `""` gives `[""]`, `"::"` gives `["", "", ""]`. -/
def rustSplit (sep : Char) (s : String) : List String :=
  rustSplitAux sep s.data []

/-- Whether a string ends with the character `'/'` (used to phrase the
"no trailing slash" side condition of base-URL trimming). -/
def endsWithSlash (s : String) : Bool :=
  s.data.getLast? == some '/'

/-- Whether the character list `l` starts with `p`. -/
def startsWithChars : List Char → List Char → Bool
  | _, [] => true
  | [], _ :: _ => false
  | c :: cs, p :: ps => c == p && startsWithChars cs ps

/-- Whether `sub` occurs as a contiguous run inside `l`. -/
def containsChars : List Char → List Char → Bool
  | [], sub => sub.isEmpty
  | c :: cs, sub => startsWithChars (c :: cs) sub || containsChars cs sub

/-- Whether the string `sub` occurs as a substring of `s`. -/
def strContains (s sub : String) : Bool :=
  containsChars s.data sub.data

/-! ## JSON values and a model of the `serde_json` codec

The client parses response bodies into `serde_json::Value`, a generic JSON
tree.  `Json` is that tree (numbers restricted to integers, which covers
every field the client's data model uses), and `jsonParse` is an executable
model of `serde_json::from_str` / `reqwest::Response::json`: it accepts a
complete JSON document with nothing but whitespace around it and rejects
everything else. -/

/-- A generic JSON tree value, the model of `serde_json::Value`. -/
inductive Json where
  | null
  | bool (b : Bool)
  | num (n : Int)
  | str (s : String)
  | arr (elems : List Json)
  | obj (fields : List (String × Json))

/-- The character `{` (written via its code point to keep brace characters
out of the source text). -/
def lbrace : Char := Char.ofNat 123

/-- The character `}`. -/
def rbrace : Char := Char.ofNat 125

/-- Drops leading JSON whitespace. -/
def skipWs (cs : List Char) : List Char :=
  cs.dropWhile (fun c => c == ' ' || c == '\t' || c == '\n' || c == '\r')

/-- Value of a hexadecimal digit, if the character is one. -/
def hexDigitVal (c : Char) : Option Nat :=
  if c.isDigit then some (c.toNat - 48)
  else if 'a' ≤ c && c ≤ 'f' then some (c.toNat - 87)
  else if 'A' ≤ c && c ≤ 'F' then some (c.toNat - 55)
  else none

/-- Parses the remainder of a JSON string literal (the opening quote already
consumed), returning the decoded characters and the rest of the input. -/
def parseStringChars : Nat → List Char → Option (List Char × List Char)
  | 0, _ => none
  | _ + 1, [] => none
  | fuel + 1, c :: rest =>
    if c == '"' then some ([], rest)
    else if c == '\\' then
      match rest with
      | [] => none
      | e :: r2 =>
        if e == 'u' then
          match r2 with
          | h1 :: h2 :: h3 :: h4 :: r3 => do
            let a ← hexDigitVal h1
            let b ← hexDigitVal h2
            let c2 ← hexDigitVal h3
            let d ← hexDigitVal h4
            let (s, r4) ← parseStringChars fuel r3
            some (Char.ofNat (a * 4096 + b * 256 + c2 * 16 + d) :: s, r4)
          | _ => none
        else do
          let ch ←
            if e == '"' then some '"'
            else if e == '\\' then some '\\'
            else if e == '/' then some '/'
            else if e == 'n' then some '\n'
            else if e == 't' then some '\t'
            else if e == 'r' then some '\r'
            else if e == 'b' then some (Char.ofNat 8)
            else if e == 'f' then some (Char.ofNat 12)
            else none
          let (s, r3) ← parseStringChars fuel r2
          some (ch :: s, r3)
    else do
      let (s, r2) ← parseStringChars fuel rest
      some (c :: s, r2)

/-- Numeric value of a list of decimal digits. -/
def natOfDigits (ds : List Char) : Nat :=
  ds.foldl (fun a c => a * 10 + (c.toNat - 48)) 0

/-- Parses a JSON integer literal (the model restricts JSON numbers to
integers; the client never consumes fractional numbers). -/
def parseNum (cs : List Char) : Option (Json × List Char) :=
  match cs with
  | '-' :: rest =>
    let ds := rest.takeWhile Char.isDigit
    if ds.isEmpty then none
    else some (Json.num (-(natOfDigits ds : Int)), rest.drop ds.length)
  | _ =>
    let ds := cs.takeWhile Char.isDigit
    if ds.isEmpty then none
    else some (Json.num (natOfDigits ds : Int), cs.drop ds.length)

/-- Parsing task: a value, the tail of an array, or the tail of an object. -/
inductive PTask where
  | val (cs : List Char)
  | elems (cs : List Char)
  | members (cs : List Char)

/-- Parsing result matching each `PTask` mode. -/
inductive PRes where
  | val (v : Json) (rest : List Char)
  | elems (vs : List Json) (rest : List Char)
  | members (ms : List (String × Json)) (rest : List Char)

/-- Single fuel-based recursive JSON parser covering values, array element
lists and object member lists. -/
def parseStep : Nat → PTask → Option PRes
  | 0, _ => none
  | fuel + 1, PTask.val cs =>
    match skipWs cs with
    | [] => none
    | c :: rest =>
      if c == lbrace then
        match skipWs rest with
        | [] => none
        | d :: r2 =>
          if d == rbrace then some (PRes.val (Json.obj []) r2)
          else
            match parseStep fuel (PTask.members (d :: r2)) with
            | some (PRes.members ms r3) => some (PRes.val (Json.obj ms) r3)
            | _ => none
      else if c == '[' then
        match skipWs rest with
        | [] => none
        | d :: r2 =>
          if d == ']' then some (PRes.val (Json.arr []) r2)
          else
            match parseStep fuel (PTask.elems (d :: r2)) with
            | some (PRes.elems vs r3) => some (PRes.val (Json.arr vs) r3)
            | _ => none
      else if c == '"' then
        match parseStringChars fuel rest with
        | some (s, r2) => some (PRes.val (Json.str ⟨s⟩) r2)
        | none => none
      else if c == '-' || c.isDigit then
        match parseNum (c :: rest) with
        | some (v, r2) => some (PRes.val v r2)
        | none => none
      else
        match c :: rest with
        | 'n' :: 'u' :: 'l' :: 'l' :: r => some (PRes.val Json.null r)
        | 't' :: 'r' :: 'u' :: 'e' :: r => some (PRes.val (Json.bool true) r)
        | 'f' :: 'a' :: 'l' :: 's' :: 'e' :: r => some (PRes.val (Json.bool false) r)
        | _ => none
  | fuel + 1, PTask.elems cs =>
    match parseStep fuel (PTask.val cs) with
    | some (PRes.val v r) =>
      (match skipWs r with
       | ',' :: r2 =>
         match parseStep fuel (PTask.elems r2) with
         | some (PRes.elems vs r3) => some (PRes.elems (v :: vs) r3)
         | _ => none
       | d :: r2 => if d == ']' then some (PRes.elems [v] r2) else none
       | [] => none)
    | _ => none
  | fuel + 1, PTask.members cs =>
    match skipWs cs with
    | c :: r =>
      if c == '"' then
        match parseStringChars fuel r with
        | some (k, r2) =>
          (match skipWs r2 with
           | ':' :: r3 =>
             (match parseStep fuel (PTask.val r3) with
              | some (PRes.val v r4) =>
                (match skipWs r4 with
                 | ',' :: r5 =>
                   (match parseStep fuel (PTask.members r5) with
                    | some (PRes.members ms r6) => some (PRes.members ((⟨k⟩, v) :: ms) r6)
                    | _ => none)
                 | d :: r5 => if d == rbrace then some (PRes.members [(⟨k⟩, v)] r5) else none
                 | [] => none)
              | _ => none)
           | _ => none)
        | none => none
      else none
    | [] => none

/-- Model of `serde_json::from_str::<Value>` as invoked by
`reqwest::Response::json`: parse one document, insist nothing but whitespace
follows. -/
def jsonParse (s : String) : Option Json :=
  match parseStep (3 * s.data.length + 3) (PTask.val s.data) with
  | some (PRes.val v rest) => if (skipWs rest).isEmpty then some v else none
  | _ => none

/-! ## Bytes, percent-encoding, SHA-1, HMAC-SHA1 and base64

The Rust client delegates signing to the external `oauth1_request` crate
(`authorize(method, url, &(), &token, HmacSha1)`), whose algorithm the
specification states in full (RFC 5849 OAuth1 with the HMAC-SHA1 signature
method).  The primitives below implement that algorithm executably over
`Nat`-valued bytes. -/

/-- UTF-8 encoding of a single character as a list of byte values. -/
def utf8Bytes (c : Char) : List Nat :=
  let n := c.toNat
  if n < 128 then [n]
  else if n < 2048 then [192 + n / 64, 128 + n % 64]
  else if n < 65536 then [224 + n / 4096, 128 + (n / 64) % 64, 128 + n % 64]
  else [240 + n / 262144, 128 + (n / 4096) % 64, 128 + (n / 64) % 64, 128 + n % 64]

/-- UTF-8 bytes of a string. -/
def strBytes (s : String) : List Nat :=
  (s.data.map utf8Bytes).flatten

/-- Uppercase hexadecimal digits. -/
def hexUpper : List Char := "0123456789ABCDEF".data

/-- Two uppercase hex digits for one byte. -/
def byteHex (b : Nat) : List Char :=
  [hexUpper.getD (b / 16 % 16) 'X', hexUpper.getD (b % 16) 'X']

/-- RFC 3986 unreserved byte: `A-Z a-z 0-9 - . _ ~`. -/
def isUnreservedByte (b : Nat) : Bool :=
  (65 ≤ b && b ≤ 90) || (97 ≤ b && b ≤ 122) || (48 ≤ b && b ≤ 57) ||
    b == 45 || b == 46 || b == 95 || b == 126

/-- RFC 3986 percent-encoding with uppercase hex, leaving only unreserved
bytes unescaped (OAuth1 parameter encoding, spec 4.1 step 2). -/
def percentEncode (s : String) : String :=
  ⟨((strBytes s).map (fun b =>
      if isUnreservedByte b then [Char.ofNat b] else '%' :: byteHex b)).flatten⟩

/-- `2^32`, the word modulus of SHA-1. -/
def pow32 : Nat := 4294967296

/-- Left rotation of a 32-bit word by `k` bits. -/
def rotl (k n : Nat) : Nat :=
  (((n <<< k) % pow32) ||| (n >>> (32 - k)))

/-- Big-endian 8-byte encoding of a (bit-length) value. -/
def bigEndian8 (n : Nat) : List Nat :=
  [(n >>> 56) % 256, (n >>> 48) % 256, (n >>> 40) % 256, (n >>> 32) % 256,
   (n >>> 24) % 256, (n >>> 16) % 256, (n >>> 8) % 256, n % 256]

/-- Big-endian 4-byte encoding of a 32-bit word. -/
def wordBytes (n : Nat) : List Nat :=
  [(n >>> 24) % 256, (n >>> 16) % 256, (n >>> 8) % 256, n % 256]

/-- SHA-1 message padding: append `0x80`, zeros to 56 mod 64, then the
64-bit big-endian bit length. -/
def sha1Pad (msg : List Nat) : List Nat :=
  msg ++ [128] ++ List.replicate ((119 - msg.length % 64) % 64) 0 ++
    bigEndian8 (msg.length * 8)

/-- Splits a list into consecutive groups of `sz` elements (fuelled). -/
def chunksAux (sz : Nat) : Nat → List Nat → List (List Nat)
  | 0, _ => []
  | fuel + 1, l =>
    if l.isEmpty then [] else l.take sz :: chunksAux sz fuel (l.drop sz)

/-- Splits a list into consecutive groups of `sz` elements. -/
def chunks (sz : Nat) (l : List Nat) : List (List Nat) :=
  chunksAux sz l.length l

/-- Big-endian 32-bit word from four bytes. -/
def word4 (l : List Nat) : Nat :=
  match l with
  | [a, b, c, d] => a * 16777216 + b * 65536 + c * 256 + d
  | _ => 0

/-- Extends the 16 message words of a SHA-1 chunk to 80 words. -/
def extendW : Nat → List Nat → List Nat
  | 0, w => w
  | fuel + 1, w =>
    let i := w.length
    let x := rotl 1 ((w.getD (i - 3) 0) ^^^ (w.getD (i - 8) 0) ^^^
      (w.getD (i - 14) 0) ^^^ (w.getD (i - 16) 0))
    extendW fuel (w ++ [x])

/-- The 80 schedule words of one 64-byte SHA-1 chunk. -/
def sha1W (chunk : List Nat) : List Nat :=
  extendW 64 ((chunks 4 chunk).map word4)

/-- One SHA-1 round: state `(a, b, c, d, e)`, round index `i`, word `wi`. -/
def sha1Round (st : Nat × Nat × Nat × Nat × Nat) (i wi : Nat) :
    Nat × Nat × Nat × Nat × Nat :=
  let (a, b, c, d, e) := st
  let f :=
    if i < 20 then (b &&& c) ||| ((b ^^^ 4294967295) &&& d)
    else if i < 40 then b ^^^ c ^^^ d
    else if i < 60 then (b &&& c) ||| (b &&& d) ||| (c &&& d)
    else b ^^^ c ^^^ d
  let k :=
    if i < 20 then 1518500249
    else if i < 40 then 1859775393
    else if i < 60 then 2400959708
    else 3395469782
  let temp := (rotl 5 a + f + e + k + wi) % pow32
  (temp, a, rotl 30 b, c, d)

/-- Processes one 64-byte chunk, updating the five-word hash state. -/
def sha1ProcessChunk (h : List Nat) (chunk : List Nat) : List Nat :=
  let w := sha1W chunk
  let st0 := (h.getD 0 0, h.getD 1 0, h.getD 2 0, h.getD 3 0, h.getD 4 0)
  let res := (List.range 80).foldl (fun st i => sha1Round st i (w.getD i 0)) st0
  match res with
  | (a, b, c, d, e) =>
    [(h.getD 0 0 + a) % pow32, (h.getD 1 0 + b) % pow32, (h.getD 2 0 + c) % pow32,
     (h.getD 3 0 + d) % pow32, (h.getD 4 0 + e) % pow32]

/-- SHA-1 of a byte list, as 20 bytes. -/
def sha1 (msg : List Nat) : List Nat :=
  let hs := (chunks 64 (sha1Pad msg)).foldl sha1ProcessChunk
    [1732584193, 4023233417, 2562383102, 271733878, 3285377520]
  (hs.map wordBytes).flatten

/-- HMAC-SHA1 (FIPS 198-1) over byte lists. -/
def hmacSha1 (key msg : List Nat) : List Nat :=
  let k0 := if key.length > 64 then sha1 key else key
  let k1 := k0 ++ List.replicate (64 - k0.length) 0
  let ipad := k1.map (fun b => b ^^^ 54)
  let opad := k1.map (fun b => b ^^^ 92)
  sha1 (opad ++ sha1 (ipad ++ msg))

/-- The base64 alphabet. -/
def b64Alphabet : List Char :=
  "ABCDEFGHIJKLMNOPQRSTUVWXYZabcdefghijklmnopqrstuvwxyz0123456789+/".data

/-- Character for a 6-bit group. -/
def b64Char (n : Nat) : Char := b64Alphabet.getD (n % 64) 'X'

/-- Standard base64 encoding with `=` padding (fuelled over byte triples). -/
def b64EncodeAux : Nat → List Nat → List Char
  | 0, _ => []
  | _ + 1, [] => []
  | _ + 1, [a] =>
    let n := a * 65536
    [b64Char (n >>> 18), b64Char (n >>> 12), '=', '=']
  | _ + 1, [a, b] =>
    let n := a * 65536 + b * 256
    [b64Char (n >>> 18), b64Char (n >>> 12), b64Char (n >>> 6), '=']
  | fuel + 1, a :: b :: c :: rest =>
    let n := a * 65536 + b * 256 + c
    [b64Char (n >>> 18), b64Char (n >>> 12), b64Char (n >>> 6), b64Char n] ++
      b64EncodeAux fuel rest

/-- Standard base64 encoding of a byte list. -/
def base64 (l : List Nat) : String :=
  ⟨b64EncodeAux l.length l⟩

/-! ## OAuth1 signing (spec 4.1) -/

/-- Lexicographic comparison of character lists by code point. -/
def charListLt : List Char → List Char → Bool
  | [], [] => false
  | [], _ :: _ => true
  | _ :: _, [] => false
  | a :: as, b :: bs =>
    if a.toNat < b.toNat then true
    else if b.toNat < a.toNat then false
    else charListLt as bs

/-- Lexicographic string order (strict). -/
def strLt (s t : String) : Bool := charListLt s.data t.data

/-- Order on already-encoded parameter pairs: by key, then by value. -/
def pairLe (p q : String × String) : Bool :=
  if p.1 == q.1 then !(strLt q.2 p.2) else strLt p.1 q.1

/-- Insertion into a sorted list. -/
def insertBy (le : String × String → String × String → Bool)
    (x : String × String) : List (String × String) → List (String × String)
  | [] => [x]
  | y :: ys => if le x y then x :: y :: ys else y :: insertBy le x ys

/-- Insertion sort. -/
def sortBy (le : String × String → String × String → Bool) :
    List (String × String) → List (String × String)
  | [] => []
  | x :: xs => insertBy le x (sortBy le xs)

/-- Uppercases ASCII letters (the HTTP method in the base string). -/
def upperAscii (s : String) : String := ⟨s.data.map Char.toUpper⟩

/-- The request URL with any query or fragment removed (spec 4.1 step 4). -/
def stripQueryFragment (url : String) : String :=
  ⟨url.data.takeWhile (fun c => !(c == '?') && !(c == '#'))⟩

/-- Modelled from the spec: the OAuth1 protocol parameter set of spec 4.1
step 1 (all `oauth_*` parameters except the signature), with the nonce and
timestamp injected so the computation is a pure function.  The signing
algorithm itself is implemented by the external `oauth1_request` crate and
is not part of `src/`. -/
def oauthParams (consumer_key token_key nonce : String) (timestamp : Nat) :
    List (String × String) :=
  [("oauth_consumer_key", consumer_key),
   ("oauth_nonce", nonce),
   ("oauth_signature_method", "HMAC-SHA1"),
   ("oauth_timestamp", toString timestamp),
   ("oauth_token", token_key),
   ("oauth_version", "1.0")]

/-- Modelled from the spec: percent-encode each parameter, sort by encoded
key then encoded value, and join as `k=v` pairs with `&` (spec 4.1 steps
2-3). -/
def oauthParamString (ps : List (String × String)) : String :=
  String.intercalate "&"
    ((sortBy pairLe (ps.map (fun p => (percentEncode p.1, percentEncode p.2)))).map
      (fun p => p.1 ++ "=" ++ p.2))

/-- Modelled from the spec: the OAuth1 signature base string
`METHOD&enc(url)&enc(params)` (spec 4.1 step 4). -/
def oauthBaseString (method url : String) (ps : List (String × String)) : String :=
  upperAscii method ++ "&" ++ percentEncode (stripQueryFragment url) ++ "&" ++
    percentEncode (oauthParamString ps)

/-- Modelled from the spec: the signing key
`enc(consumer_secret)&enc(token_secret)` (spec 4.1 step 5). -/
def oauthSigningKey (consumer_secret token_secret : String) : String :=
  percentEncode consumer_secret ++ "&" ++ percentEncode token_secret

/-- Modelled from the spec: the base64 HMAC-SHA1 signature (spec 4.1
step 6). -/
def oauthSignature (method url consumer_key consumer_secret token_key
    token_secret nonce : String) (timestamp : Nat) : String :=
  base64 (hmacSha1
    (strBytes (oauthSigningKey consumer_secret token_secret))
    (strBytes (oauthBaseString method url
      (oauthParams consumer_key token_key nonce timestamp))))

/-- One `k="percent-encoded v"` item of the Authorization header. -/
def headerParam (k v : String) : String :=
  k ++ "=\"" ++ percentEncode v ++ "\""

/-- Modelled from the spec: the full `Authorization` header emitted by the
signer (spec 4.1 step 7), standing in for
`oauth1_request::authorize(method, url, &(), &token, HmacSha1)` with the
nonce and timestamp injected. -/
def oauthAuthorize (method url consumer_key consumer_secret token_key
    token_secret nonce : String) (timestamp : Nat) : String :=
  "OAuth " ++ String.intercalate ", "
    [headerParam "oauth_consumer_key" consumer_key,
     headerParam "oauth_token" token_key,
     headerParam "oauth_signature_method" "HMAC-SHA1",
     headerParam "oauth_timestamp" (toString timestamp),
     headerParam "oauth_nonce" nonce,
     headerParam "oauth_version" "1.0",
     headerParam "oauth_signature"
       (oauthSignature method url consumer_key consumer_secret token_key
         token_secret nonce timestamp)]

/-! ## Error taxonomy and transport observations -/

/-- The kinds of `reqwest::Error` the client can observe: an invalid URL
reported when the request is built and sent, a transport-level connection
failure, a failure reading the response bytes, and a JSON decode failure
inside `Response::json`. -/
inductive ReqwestErrorKind where
  | builder
  | connect
  | bodyRead
  | decode
deriving DecidableEq

/-- The closed error taxonomy of `src/error.rs` (`MaasError`).  `Network`
wraps a `reqwest::Error` via `#[from]`; `Serialization` would wrap a
`serde_json::Error` and `UrlParseError` a `url::ParseError`, with payloads
kept as strings. -/
inductive MaasError where
  | InvalidKeyFormat
  | Unauthorized
  | Network (e : ReqwestErrorKind)
  | ApiError (status : Nat) (body : String)
  | Serialization (msg : String)
  | UrlParseError (msg : String)
deriving DecidableEq

/-- Whether a `MaasError` is the `Unauthorized` variant. -/
def MaasError.isUnauthorized : MaasError → Bool
  | MaasError.Unauthorized => true
  | _ => false

/-- Whether a `MaasError` is the `UrlParseError` variant. -/
def MaasError.isUrlParse : MaasError → Bool
  | MaasError.UrlParseError _ => true
  | _ => false

/-- Whether a `MaasError` is the `Serialization` variant. -/
def MaasError.isSerialization : MaasError → Bool
  | MaasError.Serialization _ => true
  | _ => false

/-- Whether a request result carries the `Unauthorized` error. -/
def resultUnauthorized {α : Type} (r : Except MaasError α) : Bool :=
  match r with
  | Except.error e => e.isUnauthorized
  | Except.ok _ => false

/-- Whether a request result carries the `UrlParseError` error. -/
def resultUrlParse {α : Type} (r : Except MaasError α) : Bool :=
  match r with
  | Except.error e => e.isUrlParse
  | Except.ok _ => false

/-- Whether a request result carries the `Serialization` error. -/
def resultSerialization {α : Type} (r : Except MaasError α) : Bool :=
  match r with
  | Except.error e => e.isSerialization
  | Except.ok _ => false

/-- What `request.send()` together with reading the response produced: a
`reqwest::Error` (connection failure, or an invalid URL surfacing from the
request builder), or a response with its status and body text, `none`
standing for an unreadable body. -/
inductive SendOutcome where
  | failure (e : ReqwestErrorKind)
  | response (status : Nat) (body : Option String)

/-- `reqwest::StatusCode::is_success`: `200 ≤ status ≤ 299`. -/
def isSuccessStatus (s : Nat) : Bool :=
  decide (200 ≤ s) && decide (s ≤ 299)

/-- HTTP method parsing (`method.parse::<reqwest::Method>()`), restricted to
the standard verbs: the client only ever passes `GET`, `POST`, `PUT` and
`DELETE` (the `http` crate would also accept extension tokens). -/
def parseHttpMethod (m : String) : Option String :=
  if m == "GET" || m == "POST" || m == "PUT" || m == "DELETE" || m == "HEAD" ||
      m == "OPTIONS" || m == "PATCH" then some m else none

/-! ## The client variants -/

/-- The state of `client::MaasClient` (src/client.rs, async variant):
`base_url`, the three credential fields parsed from the API key, and
`api_version`.  The same five fields make up `blocking_client::MaasClient`
and the `MaasClient` of src/lib.rs.  The held `reqwest` client is the
external transport and carries no model state. -/
structure MaasClient where
  base_url : String
  consumer_key : String
  token_key : String
  token_secret : String
  api_version : String
deriving DecidableEq

/-- `client::MaasClient::new` (src/client.rs lines 25-39): split the API key
on `':'`, require exactly 3 parts, strip trailing slashes from the base
URL. -/
def MaasClient.new (base_url api_key api_version : String) :
    Except MaasError MaasClient :=
  let parts := rustSplit ':' api_key
  if parts.length ≠ 3 then Except.error MaasError.InvalidKeyFormat
  else Except.ok ⟨rustTrimEndMatches '/' base_url, parts.getD 0 "",
    parts.getD 1 "", parts.getD 2 "", api_version⟩

/-- `blocking_client::MaasClient::new` (src/client.rs lines 208-222) and the
`new` of src/lib.rs lines 17-31: the same validation, with the failure
reported as an `anyhow` message instead of a typed error. -/
def MaasClient.blockingNew (base_url api_key api_version : String) :
    Except String MaasClient :=
  let parts := rustSplit ':' api_key
  if parts.length ≠ 3 then Except.error "Invalid API Key format. Expected A:B:C"
  else Except.ok ⟨rustTrimEndMatches '/' base_url, parts.getD 0 "",
    parts.getD 1 "", parts.getD 2 "", api_version⟩

/-- `generate_auth_header` (src/client.rs lines 42-49): empty consumer
secret, then `oauth1_request::authorize` on the method and URL.  The nonce
and timestamp the crate generates internally are injected here. -/
def MaasClient.generate_auth_header (c : MaasClient) (method url nonce : String)
    (timestamp : Nat) : String :=
  oauthAuthorize method url c.consumer_key "" c.token_key c.token_secret
    nonce timestamp

/-- URL built by the async `request` (src/client.rs line 70) and the
blocking `request` (line 250):
`format!("{}/api/{}/{}", base_url, api_version, endpoint.trim_start_matches('/'))`. -/
def buildUrl (base_url api_version endpoint : String) : String :=
  base_url ++ "/api/" ++ api_version ++ "/" ++ rustTrimStartMatches '/' endpoint

/-- URL built by the `request` of src/lib.rs line 59:
`format!("{}/api/{}{}", base_url, api_version, endpoint)` — no separator
slash and no leading-slash trimming. -/
def buildUrlLib (base_url api_version endpoint : String) : String :=
  base_url ++ "/api/" ++ api_version ++ endpoint

/-- URL built by the `get` of src/main.rs line 48:
`format!("{}/api/2.0{}", base_url, endpoint)`. -/
def buildUrlMain (base_url endpoint : String) : String :=
  base_url ++ "/api/2.0" ++ endpoint

/-- The outbound HTTP request assembled before sending: the method actually
sent, the target URL handed to the transport, the URL string that was passed
to the signer, the Authorization header, the content type, and the optional
JSON body. -/
structure BuiltRequest where
  method : String
  url : String
  signedUrl : String
  auth_header : String
  contentType : String
  body : Option Json

/-- Request assembly of the async `request` (src/client.rs lines 70-82):
the URL is built once, passed to `generate_auth_header`, and the same string
is given to `client.request`; an unparsable method falls back to `GET`
(`unwrap_or`). -/
def MaasClient.buildRequest (c : MaasClient) (method endpoint : String)
    (body : Option Json) (nonce : String) (timestamp : Nat) : BuiltRequest :=
  let url := buildUrl c.base_url c.api_version endpoint
  let auth_header := c.generate_auth_header method url nonce timestamp
  ⟨(parseHttpMethod method).getD "GET", url, url, auth_header,
    "application/json", body⟩

/-- Request assembly of the blocking `request` (src/client.rs lines
250-262): identical URL building and signing. -/
def MaasClient.blockingBuildRequest (c : MaasClient) (method endpoint : String)
    (body : Option Json) (nonce : String) (timestamp : Nat) : BuiltRequest :=
  let url := buildUrl c.base_url c.api_version endpoint
  let auth_header := c.generate_auth_header method url nonce timestamp
  ⟨(parseHttpMethod method).getD method, url, url, auth_header,
    "application/json", body⟩

/-- Request assembly of the `request` of src/lib.rs (lines 59-71): the
unseparated URL, signed and sent unchanged. -/
def MaasClient.libBuildRequest (c : MaasClient) (method endpoint : String)
    (body : Option Json) (nonce : String) (timestamp : Nat) : BuiltRequest :=
  let url := buildUrlLib c.base_url c.api_version endpoint
  let auth_header := c.generate_auth_header method url nonce timestamp
  ⟨(parseHttpMethod method).getD method, url, url, auth_header,
    "application/json", body⟩

/-- The client of src/main.rs (lines 6-28): no `api_version` field, the
version segment is the literal `2.0`. -/
structure MainMaasClient where
  base_url : String
  consumer_key : String
  token_key : String
  token_secret : String
deriving DecidableEq

/-- Request assembly of the `get` of src/main.rs (lines 47-56): builds the
URL, signs it, and sends the same string. -/
def MainMaasClient.buildGetRequest (c : MainMaasClient) (endpoint nonce : String)
    (timestamp : Nat) : BuiltRequest :=
  let url := buildUrlMain c.base_url endpoint
  let auth_header := oauthAuthorize "GET" url c.consumer_key "" c.token_key
    c.token_secret nonce timestamp
  ⟨"GET", url, url, auth_header, "application/json", none⟩

/-- Response handling of the async `request` (src/client.rs lines 84-95):
`send().await?` converts a `reqwest::Error` into `MaasError::Network` via
`#[from]`; a non-2xx status yields `ApiError` with the best-effort body
text (`unwrap_or_default`); on 2xx, `response.json().await?` again converts
any `reqwest::Error` — including a JSON decode failure — into
`MaasError::Network`. -/
def MaasClient.request (c : MaasClient) (method endpoint : String)
    (body : Option Json) (outcome : SendOutcome) : Except MaasError Json :=
  match outcome with
  | SendOutcome.failure e => Except.error (MaasError.Network e)
  | SendOutcome.response status bodyText =>
    if !isSuccessStatus status then
      Except.error (MaasError.ApiError status (bodyText.getD ""))
    else
      match bodyText with
      | none => Except.error (MaasError.Network ReqwestErrorKind.bodyRead)
      | some s =>
        match jsonParse s with
        | none => Except.error (MaasError.Network ReqwestErrorKind.decode)
        | some j => Except.ok j

/-- `client::MaasClient::get` (src/client.rs lines 51-53). -/
def MaasClient.get (c : MaasClient) (endpoint : String) (outcome : SendOutcome) :
    Except MaasError Json :=
  c.request "GET" endpoint none outcome

/-- `client::MaasClient::post` (src/client.rs lines 55-57). -/
def MaasClient.post (c : MaasClient) (endpoint : String) (body : Option Json)
    (outcome : SendOutcome) : Except MaasError Json :=
  c.request "POST" endpoint body outcome

/-- `client::MaasClient::put` (src/client.rs lines 59-61). -/
def MaasClient.put (c : MaasClient) (endpoint : String) (body : Option Json)
    (outcome : SendOutcome) : Except MaasError Json :=
  c.request "PUT" endpoint body outcome

/-- `client::MaasClient::delete` (src/client.rs lines 63-65). -/
def MaasClient.delete (c : MaasClient) (endpoint : String) (outcome : SendOutcome) :
    Except MaasError Json :=
  c.request "DELETE" endpoint none outcome

/-- The failures of the blocking `request` (src/client.rs lines 249-275),
which uses `anyhow` errors: an unparsable method, a send failure, the
formatted `MAAS Error {status}: {body}` message for a non-2xx status
(carrying the raw status and body text), and a JSON parse failure. -/
inductive AnyhowErr where
  | invalidMethod
  | sendFailed (e : ReqwestErrorKind)
  | maasStatus (status : Nat) (body : String)
  | jsonFailed (e : ReqwestErrorKind)
deriving DecidableEq

/-- Response handling of the blocking `request` (src/client.rs lines
249-275): same status logic as the async variant, with `anyhow` errors. -/
def MaasClient.blockingRequest (c : MaasClient) (method endpoint : String)
    (body : Option Json) (outcome : SendOutcome) : Except AnyhowErr Json :=
  match parseHttpMethod method with
  | none => Except.error AnyhowErr.invalidMethod
  | some _ =>
    match outcome with
    | SendOutcome.failure e => Except.error (AnyhowErr.sendFailed e)
    | SendOutcome.response status bodyText =>
      if !isSuccessStatus status then
        Except.error (AnyhowErr.maasStatus status (bodyText.getD ""))
      else
        match bodyText with
        | none => Except.error (AnyhowErr.jsonFailed ReqwestErrorKind.bodyRead)
        | some s =>
          match jsonParse s with
          | none => Except.error (AnyhowErr.jsonFailed ReqwestErrorKind.decode)
          | some j => Except.ok j

/-- `blocking_client::MaasClient::get` (src/client.rs lines 233-235). -/
def MaasClient.blockingGet (c : MaasClient) (endpoint : String)
    (outcome : SendOutcome) : Except AnyhowErr Json :=
  c.blockingRequest "GET" endpoint none outcome

/-! ## The `Machine` resource record (src/models.rs) -/

/-- `Machine` (src/models.rs lines 8-42): the deserialized machine record.
The `status` field is renamed from the JSON key `status_name`, `tags` from
`tag_names`; `ip_addresses` and `tags` default to empty lists. -/
structure Machine where
  system_id : String
  hostname : String
  power_state : String
  architecture : String
  memory : Nat
  cpu_count : Nat
  status : String
  ip_addresses : List String
  tags : List String
deriving DecidableEq

/-- First value bound to `key` in a JSON object's field list. -/
def jLookup (fields : List (String × Json)) (key : String) : Option Json :=
  (fields.find? (fun p => p.1 == key)).map (fun p => p.2)

/-- A JSON value as a string, if it is one. -/
def jAsStr : Json → Option String
  | Json.str s => some s
  | _ => none

/-- A JSON value as a `u64`, if it is a non-negative integer below `2^64`. -/
def jAsU64 : Json → Option Nat
  | Json.num n => if 0 ≤ n ∧ n < 18446744073709551616 then some n.toNat else none
  | _ => none

/-- A JSON value as a `u32`, if it is a non-negative integer below `2^32`. -/
def jAsU32 : Json → Option Nat
  | Json.num n => if 0 ≤ n ∧ n < 4294967296 then some n.toNat else none
  | _ => none

/-- A JSON value as a list of strings, if it is an array of strings. -/
def jAsStrList : Json → Option (List String)
  | Json.arr xs => xs.mapM jAsStr
  | _ => none

/-- A required field of declared JSON key `key`: absence or a type mismatch
fails the whole deserialization. -/
def reqField (fields : List (String × Json)) (key : String)
    (conv : Json → Option α) : Option α :=
  (jLookup fields key).bind conv

/-- A `#[serde(default)]` sequence field: absence yields `[]`, a present
value must be an array of strings. -/
def defaultedListField (fields : List (String × Json)) (key : String) :
    Option (List String) :=
  match jLookup fields key with
  | none => some []
  | some v => jAsStrList v

/-- The derived `serde::Deserialize` for `Machine` (src/models.rs): reads
`system_id`, `hostname`, `power_state`, `architecture`, `memory`,
`cpu_count` as required fields, `status` from the key `status_name`
(required), and `ip_addresses` / `tags` from the keys `ip_addresses` /
`tag_names` with empty-list defaults; unknown keys are ignored. -/
def machineFromJson : Json → Option Machine
  | Json.obj fields => do
    let system_id ← reqField fields "system_id" jAsStr
    let hostname ← reqField fields "hostname" jAsStr
    let power_state ← reqField fields "power_state" jAsStr
    let architecture ← reqField fields "architecture" jAsStr
    let memory ← reqField fields "memory" jAsU64
    let cpu_count ← reqField fields "cpu_count" jAsU32
    let status ← reqField fields "status_name" jAsStr
    let ip_addresses ← defaultedListField fields "ip_addresses"
    let tags ← defaultedListField fields "tag_names"
    some ⟨system_id, hostname, power_state, architecture, memory, cpu_count,
      status, ip_addresses, tags⟩
  | _ => none

/-- `Machine::is_on` (src/models.rs lines 46-48). -/
def Machine.is_on (m : Machine) : Bool :=
  m.power_state == "on"

/-! ## Specification-side definitions and fixtures -/

/-- Removal of any leading slashes from an endpoint, written from the
spec's words ("endpoint with any leading slash removed"), for comparison
with the source URL builders. -/
def specStripLeadingSlashes (endpoint : String) : String :=
  ⟨endpoint.data.dropWhile (fun c => c == '/')⟩

/-- The request URL stated by the specification (4.2):
`{base_url}/api/{api_version}/{endpoint with any leading slash removed}`. -/
def specRequestUrl (base_url api_version endpoint : String) : String :=
  base_url ++ "/api/" ++ api_version ++ "/" ++ specStripLeadingSlashes endpoint

/-- A sample constructed client used for concrete evaluations. -/
def sampleClient : MaasClient := ⟨"http://h", "k", "t", "s", "2.0"⟩

/-- A client whose base URL is not a parsable URL. -/
def badUrlClient : MaasClient := ⟨"not a url", "k", "t", "s", "2.0"⟩

/-- The client of the signature-determinism fixture
(`cons:tok:sec` against `http://localhost`). -/
def fixtureClient : MaasClient := ⟨"http://localhost", "cons", "tok", "sec", "2.0"⟩

/-- The Authorization header the fixture client produces for
`GET http://localhost/api/2.0/machines/` with nonce `abc123` and timestamp
`1700000000`. -/
def fixtureHeader : String :=
  fixtureClient.generate_auth_header "GET" "http://localhost/api/2.0/machines/"
    "abc123" 1700000000

/-- The pinned expected value of `fixtureHeader`. -/
def pinnedHeader : String :=
  "OAuth oauth_consumer_key=\"cons\", oauth_token=\"tok\", oauth_signature_method=\"HMAC-SHA1\", oauth_timestamp=\"1700000000\", oauth_nonce=\"abc123\", oauth_version=\"1.0\", oauth_signature=\"hWP3%2Fhl%2BBJ%2FHnpAEw5Hwmvsa%2B5I%3D\""

/-- Uppercase hexadecimal rendering of a byte list. -/
def bytesHex (l : List Nat) : String := ⟨(l.map byteHex).flatten⟩

/-! ## Sanity checks for the modelled primitives -/

set_option maxRecDepth 40000 in
/-- SHA-1 test vector (FIPS 180 example): digest of `"abc"`. -/
theorem sha1_vector_abc :
    bytesHex (sha1 (strBytes "abc")) = "A9993E364706816ABA3E25717850C26C9CD0D89D" := by
  decide

set_option maxRecDepth 100000 in
/-- HMAC-SHA1 test vector (RFC 2202 case 2). -/
theorem hmacSha1_vector_jefe :
    bytesHex (hmacSha1 (strBytes "Jefe") (strBytes "what do ya want for nothing?")) =
      "EFFCDF6AE5EB2FA2D27416D5F184DF9C259A7C79" := by
  decide

/-- Base64 of a 20-byte-incompatible length pads with `=`. -/
theorem base64_vector : base64 (strBytes "Ma") = "TWE=" := by decide

/-- Percent-encoding leaves unreserved bytes and escapes `!*'()` and the
space with uppercase hex (spec section 8, percent-encoding correctness). -/
theorem percentEncode_reserved :
    percentEncode "abcXYZ019-._~" = "abcXYZ019-._~" ∧
    strBytes "!*" = [33, 42] ∧
    percentEncode "!*" = "%21%2A" ∧
    percentEncode "'() " = "%27%28%29%20" := by
  exact ⟨by decide, by decide, by decide, by decide⟩

/-- The JSON codec model accepts a document and rejects trailing garbage. -/
theorem jsonParse_examples :
    jsonParse "[1, 2]" = some (Json.arr [Json.num 1, Json.num 2]) ∧
    jsonParse "\x7b\"a\": null\x7d" = some (Json.obj [("a", Json.null)]) ∧
    jsonParse "3 4" = none := by
  exact ⟨rfl, rfl, rfl⟩

/-! ## Claim theorems -/

/-- C1 counterexample: the dispatcher of src/lib.rs does not produce the
URL the claim states — for base `http://h`, version `2.0` and endpoint
`machines/` it yields `http://h/api/2.0machines/`, missing the separator
slash. -/
theorem c1_lib_url_counterexample :
    (buildUrlLib "http://h" "2.0" "machines/" == "http://h/api/2.0/machines/") = false ∧
    buildUrlLib "http://h" "2.0" "machines/" = "http://h/api/2.0machines/" := by
  exact ⟨by decide, by decide⟩

/-- C1 (amended): the async and blocking dispatchers of src/client.rs build
`{base_url}/api/{api_version}/{endpoint with leading slashes removed}`, so
`machines/` and `/machines/` both give `http://h/api/2.0/machines/` with the
trailing slash preserved; the src/lib.rs dispatcher instead concatenates
`{base_url}/api/{api_version}{endpoint}` with no separator and no
trimming. -/
theorem c1_request_url :
    (∀ b v e, buildUrl b v e = specRequestUrl b v e) ∧
    (∀ b v e, buildUrlLib b v e = b ++ "/api/" ++ v ++ e) ∧
    buildUrl "http://h" "2.0" "machines/" = "http://h/api/2.0/machines/" ∧
    buildUrl "http://h" "2.0" "/machines/" = "http://h/api/2.0/machines/" ∧
    buildUrl "http://h" "2.0" "//machines/" = "http://h/api/2.0/machines/" ∧
    buildUrlLib "http://h" "2.0" "machines/" = "http://h/api/2.0machines/" ∧
    buildUrlLib "http://h" "2.0" "/machines/" = "http://h/api/2.0/machines/" := by
  refine ⟨fun b v e => rfl, fun b v e => rfl, ?_, ?_, ?_, ?_, ?_⟩ <;> decide

/-- C3: client construction succeeds exactly when the API key splits on
`':'` into three fields, which are stored as consumer key, token key and
token secret; `k:t:s` succeeds with fields `k`, `t`, `s`; `a:b` and
`a:b:c:d` fail with `InvalidKeyFormat`; `::` succeeds with all-empty
fields. -/
theorem c3_key_parsing :
    (∀ b k v, MaasClient.new b k v =
      if (rustSplit ':' k).length = 3 then
        Except.ok ⟨rustTrimEndMatches '/' b, (rustSplit ':' k).getD 0 "",
          (rustSplit ':' k).getD 1 "", (rustSplit ':' k).getD 2 "", v⟩
      else Except.error MaasError.InvalidKeyFormat) ∧
    MaasClient.new "http://h" "k:t:s" "2.0" =
      Except.ok ⟨"http://h", "k", "t", "s", "2.0"⟩ ∧
    MaasClient.new "http://h" "a:b" "2.0" = Except.error MaasError.InvalidKeyFormat ∧
    MaasClient.new "http://h" "a:b:c:d" "2.0" = Except.error MaasError.InvalidKeyFormat ∧
    MaasClient.new "http://h" "::" "2.0" =
      Except.ok ⟨"http://h", "", "", "", "2.0"⟩ := by
  refine ⟨fun b k v => ?_, rfl, rfl, rfl, rfl⟩
  by_cases h : (rustSplit ':' k).length = 3
  · simp [MaasClient.new, h]
  · simp [MaasClient.new, h]

/-- C5: in every client variant the URL string handed to the signer is the
very URL the HTTP request is sent to, and that URL is the fully resolved
one (including the API-version path segment): `buildUrl` for the async and
blocking variants, `buildUrlLib` for src/lib.rs, `buildUrlMain` for
src/main.rs. -/
theorem c5_signed_url_is_sent_url :
    (∀ (c : MaasClient) (m e : String) (b : Option Json) (n : String) (ts : Nat),
      (c.buildRequest m e b n ts).signedUrl = (c.buildRequest m e b n ts).url ∧
      (c.buildRequest m e b n ts).url = buildUrl c.base_url c.api_version e) ∧
    (∀ (c : MaasClient) (m e : String) (b : Option Json) (n : String) (ts : Nat),
      (c.blockingBuildRequest m e b n ts).signedUrl = (c.blockingBuildRequest m e b n ts).url ∧
      (c.blockingBuildRequest m e b n ts).url = buildUrl c.base_url c.api_version e) ∧
    (∀ (c : MaasClient) (m e : String) (b : Option Json) (n : String) (ts : Nat),
      (c.libBuildRequest m e b n ts).signedUrl = (c.libBuildRequest m e b n ts).url ∧
      (c.libBuildRequest m e b n ts).url = buildUrlLib c.base_url c.api_version e) ∧
    (∀ (c : MainMaasClient) (e n : String) (ts : Nat),
      (c.buildGetRequest e n ts).signedUrl = (c.buildGetRequest e n ts).url ∧
      (c.buildGetRequest e n ts).url = buildUrlMain c.base_url e) := by
  exact ⟨fun _ _ _ _ _ _ => ⟨rfl, rfl⟩, fun _ _ _ _ _ _ => ⟨rfl, rfl⟩,
    fun _ _ _ _ _ _ => ⟨rfl, rfl⟩, fun _ _ _ _ => ⟨rfl, rfl⟩⟩

/-- A string that does not end in `'/'` is unchanged by
`trim_end_matches('/')`. -/
theorem trimEnd_of_no_slash (b : String) (h : endsWithSlash b = false) :
    rustTrimEndMatches '/' b = b := by
  obtain ⟨l⟩ := b
  have hl : (l.getLast? == some '/') = false := h
  suffices hs : (l.reverse.dropWhile (fun d => d == '/')).reverse = l by
    simpa [rustTrimEndMatches] using congrArg String.mk hs
  cases hr : l.reverse with
  | nil =>
    have : l = [] := by simpa using congrArg List.reverse hr
    simp [this]
  | cons x xs =>
    have hx : l.getLast? = some x := by
      rw [← List.head?_reverse, hr]; rfl
    have hxs : (x == '/') = false := by
      rw [hx] at hl
      simpa using hl
    rw [List.dropWhile_cons, hxs]
    simp only [Bool.false_eq_true, if_false]
    rw [← hr, List.reverse_reverse]

/-- C7: construction stores the base URL with every trailing slash
stripped: `http://h/` and `http://h///` both normalize to `http://h`, and a
base URL with no trailing slash is stored unchanged. -/
theorem c7_base_url_trimming :
    (∀ b v, MaasClient.new b "a:b:c" v =
      Except.ok ⟨rustTrimEndMatches '/' b, "a", "b", "c", v⟩) ∧
    rustTrimEndMatches '/' "http://h/" = "http://h" ∧
    rustTrimEndMatches '/' "http://h///" = "http://h" ∧
    (∀ b, endsWithSlash b = false → rustTrimEndMatches '/' b = b) := by
  exact ⟨fun b v => rfl, by decide, by decide, trimEnd_of_no_slash⟩

/-- C7 witness: the general statements of `c7_base_url_trimming` evaluated
at `http://h`, which has no trailing slash and is stored unchanged. -/
theorem c7_base_url_trimming_witness :
    endsWithSlash "http://h" = false ∧
    rustTrimEndMatches '/' "http://h" = "http://h" ∧
    MaasClient.new "http://h" "a:b:c" "2.0" =
      Except.ok ⟨"http://h", "a", "b", "c", "2.0"⟩ := by
  refine ⟨by decide, c7_base_url_trimming.2.2.2 "http://h" (by decide), ?_⟩
  rw [(c7_base_url_trimming.1 "http://h" "2.0" : _),
    c7_base_url_trimming.2.2.2 "http://h" (by decide)]

/-- The async `request` never produces the `Unauthorized`, `UrlParseError`
or `Serialization` variants: its only failure constructors are `Network`
(from `?` on `send` and on `json()`) and `ApiError`. -/
theorem request_error_kinds (c : MaasClient) (m e : String) (b : Option Json)
    (out : SendOutcome) :
    resultUnauthorized (c.request m e b out) = false ∧
    resultUrlParse (c.request m e b out) = false ∧
    resultSerialization (c.request m e b out) = false := by
  cases out with
  | failure err => exact ⟨rfl, rfl, rfl⟩
  | response s bt =>
    simp only [MaasClient.request]
    cases hs : isSuccessStatus s with
    | false => exact ⟨rfl, rfl, rfl⟩
    | true =>
      simp only [Bool.not_true, Bool.false_eq_true, if_false]
      cases bt with
      | none => exact ⟨rfl, rfl, rfl⟩
      | some str =>
        cases hj : jsonParse str with
        | none =>
          simp [hj, resultUnauthorized, resultUrlParse, resultSerialization,
            MaasError.isUnauthorized, MaasError.isUrlParse, MaasError.isSerialization]
        | some j =>
          simp [hj, resultUnauthorized, resultUrlParse, resultSerialization]

/-- C2 (code divergence): a 2xx response whose body is not valid JSON makes
every verb fail with `Network` — the `reqwest` decode error of
`response.json()` is converted by `#[from] reqwest::Error` into
`MaasError::Network` — and not with the `Serialization` variant the
specification names. -/
theorem c2_parse_failure_is_network :
    MaasClient.get sampleClient "machines/"
      (SendOutcome.response 200 (some "\x7bnot json")) =
      Except.error (MaasError.Network ReqwestErrorKind.decode) ∧
    MaasClient.post sampleClient "machines/" none
      (SendOutcome.response 200 (some "\x7bnot json")) =
      Except.error (MaasError.Network ReqwestErrorKind.decode) ∧
    MaasClient.put sampleClient "machines/" none
      (SendOutcome.response 200 (some "\x7bnot json")) =
      Except.error (MaasError.Network ReqwestErrorKind.decode) ∧
    MaasClient.delete sampleClient "machines/"
      (SendOutcome.response 200 (some "\x7bnot json")) =
      Except.error (MaasError.Network ReqwestErrorKind.decode) ∧
    resultSerialization (MaasClient.get sampleClient "machines/"
      (SendOutcome.response 200 (some "\x7bnot json"))) = false ∧
    jsonParse "\x7bnot json" = none := by
  exact ⟨rfl, rfl, rfl, rfl, rfl, rfl⟩

/-- C4: a response with a status outside 2xx makes every verb fail with
`ApiError` carrying the raw status and the body text, the empty string when
the body is unreadable; the blocking variant carries the same status and
body in its `MAAS Error {status}: {body}` message. -/
theorem c4_api_error_non_2xx (c : MaasClient) (e : String) (b : Option Json)
    (s : Nat) (t : String) (h : isSuccessStatus s = false) :
    c.get e (SendOutcome.response s (some t)) =
      Except.error (MaasError.ApiError s t) ∧
    c.get e (SendOutcome.response s none) =
      Except.error (MaasError.ApiError s "") ∧
    c.post e b (SendOutcome.response s (some t)) =
      Except.error (MaasError.ApiError s t) ∧
    c.put e b (SendOutcome.response s (some t)) =
      Except.error (MaasError.ApiError s t) ∧
    c.delete e (SendOutcome.response s (some t)) =
      Except.error (MaasError.ApiError s t) ∧
    c.blockingGet e (SendOutcome.response s (some t)) =
      Except.error (AnyhowErr.maasStatus s t) ∧
    c.blockingGet e (SendOutcome.response s none) =
      Except.error (AnyhowErr.maasStatus s "") := by
  have hm : parseHttpMethod "GET" = some "GET" := rfl
  refine ⟨?_, ?_, ?_, ?_, ?_, ?_, ?_⟩ <;>
    simp [MaasClient.get, MaasClient.post, MaasClient.put, MaasClient.delete,
      MaasClient.blockingGet, MaasClient.request, MaasClient.blockingRequest, hm, h]

/-- C4 witness: a 404 with body `not found` yields
`ApiError{status: 404, body: "not found"}`. -/
theorem c4_api_error_non_2xx_witness :
    isSuccessStatus 404 = false ∧
    MaasClient.get sampleClient "machines/" (SendOutcome.response 404 (some "not found")) =
      Except.error (MaasError.ApiError 404 "not found") :=
  ⟨by decide,
    (c4_api_error_non_2xx sampleClient "machines/" none 404 "not found" (by decide)).1⟩

/-- C8: a 401 response is reported as a plain `ApiError` with status 401
and the body text, and no operation — construction or any verb — ever
returns the `Unauthorized` variant. -/
theorem c8_unauthorized_never_constructed :
    (∀ (c : MaasClient) (e t : String),
      c.get e (SendOutcome.response 401 (some t)) =
        Except.error (MaasError.ApiError 401 t)) ∧
    (∀ (c : MaasClient) (m e : String) (b : Option Json) (out : SendOutcome),
      resultUnauthorized (c.request m e b out) = false) ∧
    (∀ (c : MaasClient) (e : String) (out : SendOutcome),
      resultUnauthorized (c.get e out) = false) ∧
    (∀ (c : MaasClient) (e : String) (b : Option Json) (out : SendOutcome),
      resultUnauthorized (c.post e b out) = false) ∧
    (∀ (c : MaasClient) (e : String) (b : Option Json) (out : SendOutcome),
      resultUnauthorized (c.put e b out) = false) ∧
    (∀ (c : MaasClient) (e : String) (out : SendOutcome),
      resultUnauthorized (c.delete e out) = false) ∧
    (∀ b k v, resultUnauthorized (MaasClient.new b k v) = false) := by
  refine ⟨fun c e t => rfl,
    fun c m e b out => (request_error_kinds c m e b out).1,
    fun c e out => (request_error_kinds c "GET" e none out).1,
    fun c e b out => (request_error_kinds c "POST" e b out).1,
    fun c e b out => (request_error_kinds c "PUT" e b out).1,
    fun c e out => (request_error_kinds c "DELETE" e none out).1,
    fun b k v => ?_⟩
  by_cases h : (rustSplit ':' k).length = 3 <;>
    simp [MaasClient.new, h, resultUnauthorized, MaasError.isUnauthorized]

/-- C9 counterexample: with a malformed base URL the transport reports the
invalid URL through its own error type, so the operation fails with the
`Network` kind and not with `UrlParseError` as the claim states. -/
theorem c9_url_parse_counterexample :
    MaasClient.get badUrlClient "machines/"
      (SendOutcome.failure ReqwestErrorKind.builder) =
      Except.error (MaasError.Network ReqwestErrorKind.builder) ∧
    resultUrlParse (MaasClient.get badUrlClient "machines/"
      (SendOutcome.failure ReqwestErrorKind.builder)) = false := by
  exact ⟨rfl, rfl⟩

/-- C9 (amended): a malformed base or constructed URL makes the operation
using it fail at the point of use with the `Network` kind (the invalid URL
surfaces as a `reqwest` builder error through `#[from] reqwest::Error`);
construction performs no URL validation, and no operation ever returns the
`UrlParseError` variant. -/
theorem c9_url_parse_amended :
    (∀ (c : MaasClient) (m e : String) (b : Option Json) (er : ReqwestErrorKind),
      c.request m e b (SendOutcome.failure er) =
        Except.error (MaasError.Network er)) ∧
    (∀ (c : MaasClient) (m e : String) (b : Option Json) (out : SendOutcome),
      resultUrlParse (c.request m e b out) = false) ∧
    (∀ b k v, resultUrlParse (MaasClient.new b k v) = false) ∧
    (∀ b v, (MaasClient.new b "a:b:c" v).isOk = true) := by
  refine ⟨fun c m e b er => rfl,
    fun c m e b out => (request_error_kinds c m e b out).2.1,
    fun b k v => ?_, fun b v => rfl⟩
  by_cases h : (rustSplit ':' k).length = 3 <;>
    simp [MaasClient.new, h, resultUrlParse, MaasError.isUrlParse]

set_option maxRecDepth 400000 in
/-- C6: signing is a pure function of its inputs once the nonce and
timestamp are injected — signing twice yields byte-identical headers — and
for the fixture (consumer `cons`, token `tok`, secret `sec`, nonce
`abc123`, timestamp 1700000000, `GET http://localhost/api/2.0/machines/`)
the header carries exactly `oauth_consumer_key="cons"`,
`oauth_token="tok"`, `oauth_signature_method="HMAC-SHA1"` and the pinned
reproducible signature `hWP3/hl+BJ/HnpAEw5Hwmvsa+5I=` (percent-encoded in
the header). -/
theorem c6_signature_determinism :
    (∀ (method url ck cs tk tsec nonce : String) (ts : Nat),
      oauthAuthorize method url ck cs tk tsec nonce ts =
        oauthAuthorize method url ck cs tk tsec nonce ts) ∧
    MaasClient.new "http://localhost" "cons:tok:sec" "2.0" =
      Except.ok fixtureClient ∧
    fixtureHeader = pinnedHeader ∧
    strContains fixtureHeader "oauth_consumer_key=\"cons\"" = true ∧
    strContains fixtureHeader "oauth_token=\"tok\"" = true ∧
    strContains fixtureHeader "oauth_signature_method=\"HMAC-SHA1\"" = true ∧
    strContains fixtureHeader
      "oauth_signature=\"hWP3%2Fhl%2BBJ%2FHnpAEw5Hwmvsa%2B5I%3D\"" = true := by
  have hEq : fixtureHeader = pinnedHeader := by decide
  refine ⟨fun _ _ _ _ _ _ _ _ => rfl, rfl, hEq, ?_, ?_, ?_, ?_⟩ <;>
    rw [hEq] <;> decide

/-- The JSON object of a fully populated machine record, together with
decoy `status` and `tags` keys whose values differ from `status_name` and
`tag_names`. -/
def machineJson : List (String × Json) :=
  [("system_id", Json.str "x8d7f"), ("hostname", Json.str "web-server-01"),
   ("power_state", Json.str "on"), ("architecture", Json.str "amd64/generic"),
   ("memory", Json.num 2048), ("cpu_count", Json.num 4),
   ("status_name", Json.str "Ready"), ("status", Json.str "MISTAKEN"),
   ("tags", Json.arr [Json.str "MISTAKEN"]),
   ("ip_addresses", Json.arr [Json.str "10.0.0.1"]),
   ("tag_names", Json.arr [Json.str "virtual"])]

/-- `machineJson` with the keys in `ks` removed. -/
def machineJsonWithout (ks : List String) : List (String × Json) :=
  machineJson.filter (fun p => !(ks.contains p.1))

/-- C10: deserializing a machine reads `status` from the key `status_name`
and `tags` from `tag_names` (the decoy `status` and `tags` keys are
ignored); absent `ip_addresses` or `tag_names` default to the empty list;
and dropping any one of the seven required keys makes deserialization
fail. -/
theorem c10_machine_deserialization :
    machineFromJson (Json.obj machineJson) =
      some ⟨"x8d7f", "web-server-01", "on", "amd64/generic", 2048, 4,
        "Ready", ["10.0.0.1"], ["virtual"]⟩ ∧
    machineFromJson (Json.obj (machineJsonWithout ["ip_addresses", "tag_names"])) =
      some ⟨"x8d7f", "web-server-01", "on", "amd64/generic", 2048, 4,
        "Ready", [], []⟩ ∧
    machineFromJson (Json.obj (machineJsonWithout ["status", "tags"])) =
      some ⟨"x8d7f", "web-server-01", "on", "amd64/generic", 2048, 4,
        "Ready", ["10.0.0.1"], ["virtual"]⟩ ∧
    machineFromJson (Json.obj (machineJsonWithout ["system_id"])) = none ∧
    machineFromJson (Json.obj (machineJsonWithout ["hostname"])) = none ∧
    machineFromJson (Json.obj (machineJsonWithout ["power_state"])) = none ∧
    machineFromJson (Json.obj (machineJsonWithout ["architecture"])) = none ∧
    machineFromJson (Json.obj (machineJsonWithout ["memory"])) = none ∧
    machineFromJson (Json.obj (machineJsonWithout ["cpu_count"])) = none ∧
    machineFromJson (Json.obj (machineJsonWithout ["status_name"])) = none := by
  exact ⟨rfl, rfl, rfl, rfl, rfl, rfl, rfl, rfl, rfl, rfl⟩
